import Mathlib

/-!
Shallow embedding of the notification service of the
koperasi-fatihul-barokah mobile app (the corrected service variant of
`src/unnamed/part_001`, exported as `NotificationService`).

The backend (a hosted relational store reachable through query and RPC
calls) is modelled as an explicit database value `DB` together with an
environment `Env` of fault flags, one per remote call site: a flag set
to `true` means that call returns an error, exactly the condition the
TypeScript code checks (`if (error) ...` / `catch`).  Every operation
additionally returns the trace of remote calls it performed, so that
control-flow properties (which layer ran, in which order, whether any
mutation happened) are stated as properties of the trace.
-/

namespace KoperasiNotif

/-- Opaque structured payload attached to a notification (`data` column,
an open key-value object; the code only ever defaults it with
`item.data || {}`). -/
abbrev Payload := List (String × String)

/-- Row of the `transaksi` table (only the columns the service reads). -/
structure TransaksiRow where
  id : String
  anggota_id : String
deriving Repr, DecidableEq

/-- Row of the `transaksi_notifikasi` table. -/
structure TransNotifRow where
  id : String
  judul : String
  pesan : String
  jenis : Option String
  dta : Option Payload
  is_read : Option Bool
  transaksi_id : Option String
  created_at : Nat
  updated_at : Option Nat
deriving Repr, DecidableEq

/-- Row of the `global_notifikasi` table. -/
structure GlobalNotifRow where
  id : String
  judul : String
  pesan : String
  jenis : Option String
  dta : Option Payload
  created_at : Nat
  updated_at : Option Nat
deriving Repr, DecidableEq

/-- Row of the `global_notifikasi_read` join table (one member's read
state for one global notification). -/
structure ReadStatusRow where
  id : String
  global_notifikasi_id : String
  anggota_id : String
  is_read : Bool
  created_at : Nat
  updated_at : Nat
deriving Repr, DecidableEq

/-- The remote relational store, as seen by this client. -/
structure DB where
  transaksi : List TransaksiRow
  transaksi_notifikasi : List TransNotifRow
  global_notifikasi : List GlobalNotifRow
  global_notifikasi_read : List ReadStatusRow
deriving Repr, DecidableEq

/-- Source tag of a unified notification. -/
inductive Source where
  | transaction
  | global
deriving Repr, DecidableEq

/-- The unified notification shape produced by the service. -/
structure Notification where
  id : String
  judul : String
  pesan : String
  jenis : Option String
  dta : Payload
  is_read : Bool
  created_at : Nat
  updated_at : Nat
  source : Source
  transaksi_id : Option String
  global_notifikasi_id : Option String
  anggota_id : String
deriving Repr, DecidableEq

/-- One remote call, as recorded in an operation's trace. -/
inductive Event where
  | rpcTransNotif
  | qTransaksi
  | qTransNotifByIds
  | qJatuhTempo
  | rpcGlobalNotif
  | qGlobalJoin
  | qGlobal
  | qReadStatus
  | qCheckTransNotif
  | updTransNotif
  | qCheckGlobal
  | qCheckReadStatus
  | updReadStatus
  | insReadStatus
  | rpcMarkAsRead
  | maUpdTransNotif
  | maUpdReadStatus
deriving Repr, DecidableEq

/-- Fault-injection environment: one flag per remote call site (`true`
means that call reports an error), the success flag returned by the
privileged mark-as-read RPC, the current wall-clock instant used for
`new Date().toISOString()`, and the id the store assigns to a freshly
inserted read-status row. -/
structure Env where
  rpcTransNotifFails : Bool := false
  qTransaksiFails : Bool := false
  qTransNotifByIdsFails : Bool := false
  qJatuhTempoFails : Bool := false
  rpcGlobalFails : Bool := false
  qGlobalJoinFails : Bool := false
  qGlobalFails : Bool := false
  qReadStatusFails : Bool := false
  cntTransFails : Bool := false
  cntGlobalFails : Bool := false
  qCheckTransFails : Bool := false
  updTransNotifFails : Bool := false
  qCheckGlobalFails : Bool := false
  qCheckReadStatusFails : Bool := false
  updReadStatusFails : Bool := false
  insReadStatusFails : Bool := false
  rpcMarkReadFails : Bool := false
  rpcMarkReadSuccess : Bool := false
  maQTransaksiFails : Bool := false
  maUpdTransFails : Bool := false
  maUpdReadFails : Bool := false
  byTypeRpcGlobalFails : Bool := false
  byTypeQGlobalFails : Bool := false
  byTypeQTransFails : Bool := false
  now : Nat := 0
  freshReadId : String := ""
deriving Repr, DecidableEq

/-- All remote calls fail (the total-failure pattern of claim C10). -/
def Env.allFaults (e : Env) : Prop :=
  e.rpcTransNotifFails = true ∧ e.qTransaksiFails = true ∧
  e.qTransNotifByIdsFails = true ∧ e.qJatuhTempoFails = true ∧
  e.rpcGlobalFails = true ∧ e.qGlobalJoinFails = true ∧
  e.qGlobalFails = true ∧ e.qReadStatusFails = true ∧
  e.cntTransFails = true ∧ e.cntGlobalFails = true ∧
  e.qCheckTransFails = true ∧ e.updTransNotifFails = true ∧
  e.qCheckGlobalFails = true ∧ e.qCheckReadStatusFails = true ∧
  e.updReadStatusFails = true ∧ e.insReadStatusFails = true ∧
  e.rpcMarkReadFails = true ∧ e.maQTransaksiFails = true ∧
  e.maUpdTransFails = true ∧ e.maUpdReadFails = true ∧
  e.byTypeRpcGlobalFails = true ∧ e.byTypeQGlobalFails = true ∧
  e.byTypeQTransFails = true

/-- Result of a supabase `.single()` call: exactly one row, no row
(error code PGRST116), or several rows (a different error code). -/
inductive SingleErr where
  | noRows
  | multiRows
deriving Repr, DecidableEq

/-- Supabase `.single()`: succeeds exactly when the query returned one
row. -/
def single {α : Type} : List α → Except SingleErr α
  | [x] => .ok x
  | [] => .error .noRows
  | _ => .error .multiRows

/-- JS `Map.set`: overwrite the binding if the key is present, append it
otherwise (insertion order preserved). -/
def mapSet : List (String × Bool) → String → Bool → List (String × Bool)
  | [], k, v => [(k, v)]
  | (k1, v1) :: rest, k, v =>
    if k1 = k then (k, v) :: rest else (k1, v1) :: mapSet rest k v

/-- JS `Map.get`, as used via `readStatusMap.get(id) ?? false`. -/
def mapGet (m : List (String × Bool)) (k : String) : Option Bool :=
  (m.find? (fun p => p.1 == k)).map (fun p => p.2)

/-- Insert one element into a list kept non-increasing by `key`
(stable: equal keys keep existing elements first). -/
def insertDescBy {α : Type} (key : α → Nat) (x : α) : List α → List α
  | [] => [x]
  | y :: ys => if key y < key x then x :: y :: ys else y :: insertDescBy key x ys

/-- Stable sort, non-increasing by `key`: the shallow embedding of the
JS `.sort((a, b) => keyB - keyA)` calls (and of the `order(created_at,
descending)` clauses of the remote queries). -/
def sortDescBy {α : Type} (key : α → Nat) : List α → List α
  | [] => []
  | x :: xs => insertDescBy key x (sortDescBy key xs)

/-- The whole-result notification cache, keyed by member id and limit
(the string key `notifications-id-limit` is injective in those two
components for numeric limits). -/
abbrev Cache := List ((String × Nat) × List Notification)

def cacheLookup : Cache → String × Nat → Option (List Notification)
  | [], _ => none
  | (k, v) :: rest, key => if k = key then some v else cacheLookup rest key

/-- Store a result under a key, shadowing any previous entry. -/
def cacheInsert (c : Cache) (k : String × Nat) (v : List Notification) : Cache :=
  (k, v) :: c

/-- Read-status rows of one member for one global notification. -/
def readRowsFor (db : DB) (gid anggotaId : String) : List ReadStatusRow :=
  db.global_notifikasi_read.filter
    (fun r => decide (r.global_notifikasi_id = gid ∧ r.anggota_id = anggotaId))

/-- Ids of the member's rows in `transaksi`. -/
def memberTransIds (db : DB) (anggotaId : String) : List String :=
  (db.transaksi.filter (fun t => decide (t.anggota_id = anggotaId))).map (fun t => t.id)

/-- Supabase `.in(column, ids)` membership test for a nullable column. -/
def inIds (ids : List String) (x : Option String) : Bool :=
  ids.any (fun i => decide (x = some i))

/-- Modelled from the spec: the backend RPC
`get_member_transaction_notifications` (member id + limit → ordered
transaction notifications), a server-side function not present under
src.  Returns the notifications of the member's transactions, newest
first, capped by the `.limit(limit)` the client attaches. -/
def rpcMemberTransactionNotifications (db : DB) (anggotaId : String) (limit : Nat) :
    List TransNotifRow :=
  (sortDescBy (fun t => t.created_at)
    (db.transaksi_notifikasi.filter
      (fun t => inIds (memberTransIds db anggotaId) t.transaksi_id))).take limit

/-- Modelled from the spec: the backend RPC
`get_member_global_notifications` (member id → global notifications
pre-joined with this member's read flag), a server-side function not
present under src.  The read flag defaults to false when the member has
no read-status row. -/
def rpcMemberGlobalNotifications (db : DB) (anggotaId : String) :
    List (GlobalNotifRow × Bool) :=
  (sortDescBy (fun g => g.created_at) db.global_notifikasi).map
    (fun g => (g, ((readRowsFor db g.id anggotaId).head?.map
      (fun r => r.is_read)).getD false))

/-- Normalization of a `transaksi_notifikasi` row into the unified
shape (also used verbatim for the standalone jatuh_tempo rows). -/
def formatTransNotif (anggotaId : String) (item : TransNotifRow) : Notification :=
  { id := item.id
    judul := item.judul
    pesan := item.pesan
    jenis := item.jenis
    dta := item.dta.getD []
    is_read := item.is_read.getD false
    created_at := item.created_at
    updated_at := item.updated_at.getD item.created_at
    source := .transaction
    transaksi_id := item.transaksi_id
    global_notifikasi_id := none
    anggota_id := anggotaId }

/-- Normalization of a `global_notifikasi` row: the read flag is
resolved through the read-status map, defaulting to false, and `jenis`
is kept exactly as stored (no defaulting to a fixed category). -/
def formatGlobalNotif (anggotaId : String) (readMap : List (String × Bool))
    (item : GlobalNotifRow) : Notification :=
  { id := item.id
    judul := item.judul
    pesan := item.pesan
    jenis := item.jenis
    dta := item.dta.getD []
    is_read := (mapGet readMap item.id).getD false
    created_at := item.created_at
    updated_at := item.updated_at.getD item.created_at
    source := .global
    transaksi_id := none
    global_notifikasi_id := some item.id
    anggota_id := anggotaId }

/-- Step 2 of getNotifications: transaction-scoped notifications, RPC
first, manual fallback (member's transactions, then their notifications)
on RPC error; every failure degrades to the empty list. -/
def fetchTransactionNotifs (env : Env) (db : DB) (anggotaId : String) (limit : Nat) :
    List TransNotifRow × List Event :=
  if env.rpcTransNotifFails then
    if env.qTransaksiFails then ([], [.rpcTransNotif, .qTransaksi])
    else
      let ids := memberTransIds db anggotaId
      if ids.isEmpty then ([], [.rpcTransNotif, .qTransaksi])
      else if env.qTransNotifByIdsFails then
        ([], [.rpcTransNotif, .qTransaksi, .qTransNotifByIds])
      else
        ((sortDescBy (fun t => t.created_at)
            (db.transaksi_notifikasi.filter (fun t => inIds ids t.transaksi_id))).take limit,
          [.rpcTransNotif, .qTransaksi, .qTransNotifByIds])
  else (rpcMemberTransactionNotifications db anggotaId limit, [.rpcTransNotif])

/-- Standalone jatuh_tempo fetch of the corrected aggregation path: all
`transaksi_notifikasi` rows with jenis jatuh_tempo, filtered only by
jenis (not by the requesting member), newest first, capped at limit. -/
def fetchJatuhTempoNotifs (env : Env) (db : DB) (limit : Nat) :
    List TransNotifRow × List Event :=
  if env.qJatuhTempoFails then ([], [.qJatuhTempo])
  else
    ((sortDescBy (fun t => t.created_at)
        (db.transaksi_notifikasi.filter (fun t => decide (t.jenis = some "jatuh_tempo")))).take limit,
      [.qJatuhTempo])

/-- Step 3 of getNotifications: global notifications plus a read-status
map, through a cascade of three strategies, each tried only after the
previous one errored: the member RPC, then an inner-join query, then two
separate queries reconciled client-side. -/
def fetchGlobalNotifs (env : Env) (db : DB) (anggotaId : String) :
    List GlobalNotifRow × List (String × Bool) × List Event :=
  if env.rpcGlobalFails then
    if env.qGlobalJoinFails then
      let globals := if env.qGlobalFails then []
        else sortDescBy (fun g => g.created_at) db.global_notifikasi
      let readMap := if env.qReadStatusFails then []
        else (db.global_notifikasi_read.filter
              (fun r => decide (r.anggota_id = anggotaId))).foldl
            (fun acc r => mapSet acc r.global_notifikasi_id r.is_read) []
      (globals, readMap, [.rpcGlobalNotif, .qGlobalJoin, .qGlobal, .qReadStatus])
    else
      let joined := sortDescBy (fun g => g.created_at)
        (db.global_notifikasi.filter (fun g => !(readRowsFor db g.id anggotaId).isEmpty))
      let readMap := joined.foldl
        (fun acc g =>
          match (readRowsFor db g.id anggotaId).head? with
          | some r => mapSet acc g.id r.is_read
          | none => acc) []
      (joined, readMap, [.rpcGlobalNotif, .qGlobalJoin])
  else
    let pairs := rpcMemberGlobalNotifications db anggotaId
    (pairs.map Prod.fst,
      pairs.foldl (fun acc p => mapSet acc p.1.id p.2) [],
      [.rpcGlobalNotif])

/-- Result of a listing operation: the notifications, the new cache,
and the trace of remote calls performed. -/
structure FetchOut where
  items : List Notification
  cache : Cache
  trace : List Event
deriving Repr, DecidableEq

/-- The fetch-and-aggregate path of getNotifications (steps 2-6): fetch
the three sources, normalize, merge, sort newest first, truncate to
limit, store in the cache. -/
def getNotificationsFresh (env : Env) (db : DB) (cache : Cache)
    (anggotaId : String) (limit : Nat) : FetchOut :=
  let tn := fetchTransactionNotifs env db anggotaId limit
  let jt := fetchJatuhTempoNotifs env db limit
  let gl := fetchGlobalNotifs env db anggotaId
  let allN := (sortDescBy (fun n => n.created_at)
      (tn.1.map (formatTransNotif anggotaId) ++
        jt.1.map (formatTransNotif anggotaId) ++
        gl.1.map (formatGlobalNotif anggotaId gl.2.1))).take limit
  ⟨allN, cacheInsert cache (anggotaId, limit) allN, tn.2 ++ jt.2 ++ gl.2.2⟩

/-- NotificationService.getNotifications: serve from the whole-result
cache keyed by (member, limit) unless forceRefresh, otherwise run the
fetch-and-aggregate path. -/
def getNotifications (env : Env) (db : DB) (cache : Cache) (anggotaId : String)
    (limit : Nat := 50) (forceRefresh : Bool := false) : FetchOut :=
  if forceRefresh then getNotificationsFresh env db cache anggotaId limit
  else
    match cacheLookup cache (anggotaId, limit) with
    | some v => ⟨v, cache, []⟩
    | none => getNotificationsFresh env db cache anggotaId limit

/-- NotificationService.getUnreadCount: count of unread transaction
notifications over the whole table (not filtered by member) plus the
count of this member's unread global read-status rows; a failing
transaction count yields 0, a failing global count yields the
transaction count alone. -/
def getUnreadCount (env : Env) (db : DB) (anggotaId : String) : Nat :=
  if env.cntTransFails then 0
  else
    let transactionCount :=
      (db.transaksi_notifikasi.filter (fun r => decide (r.is_read = some false))).length
    if env.cntGlobalFails then transactionCount
    else
      transactionCount +
        (db.global_notifikasi_read.filter
          (fun r => decide (r.anggota_id = anggotaId ∧ r.is_read = false))).length

/-- NotificationService.getNotificationsByType: global-style categories
are served from the member RPC (fallback: a filtered left-join query),
other categories from a filtered transaction-table query. -/
def getNotificationsByType (env : Env) (db : DB) (anggotaId ty : String)
    (limit : Nat := 20) : List Notification :=
  if ty = "pengumuman" ∨ ty = "sistem" then
    if env.byTypeRpcGlobalFails then
      if env.byTypeQGlobalFails then []
      else
        ((sortDescBy (fun g => g.created_at)
            (db.global_notifikasi.filter (fun g => decide (g.jenis = some ty)))).take limit).map
          (fun g =>
            let readStatus := (db.global_notifikasi_read.filter
                (fun r => decide (r.global_notifikasi_id = g.id))).find?
              (fun r => decide (r.anggota_id = anggotaId))
            { id := g.id, judul := g.judul, pesan := g.pesan, jenis := g.jenis
              dta := g.dta.getD []
              is_read := (readStatus.map (fun r => r.is_read)).getD false
              created_at := g.created_at
              updated_at := g.updated_at.getD g.created_at
              source := .global, transaksi_id := none
              global_notifikasi_id := some g.id, anggota_id := anggotaId })
    else
      (((rpcMemberGlobalNotifications db anggotaId).filter
          (fun p => decide (p.1.jenis = some ty))).take limit).map
        (fun p =>
          { id := p.1.id, judul := p.1.judul, pesan := p.1.pesan, jenis := p.1.jenis
            dta := p.1.dta.getD []
            is_read := p.2
            created_at := p.1.created_at
            updated_at := p.1.updated_at.getD p.1.created_at
            source := .global, transaksi_id := none
            global_notifikasi_id := some p.1.id, anggota_id := anggotaId })
  else
    if env.byTypeQTransFails then []
    else
      ((sortDescBy (fun t => t.created_at)
          (db.transaksi_notifikasi.filter (fun t => decide (t.jenis = some ty)))).take limit).map
        (formatTransNotif anggotaId)

/-- The row transformer of the global direct-update branch: set is_read
and refresh updated_at on the (notification, member) row, leave every
other row alone. -/
def setReadTrue (env : Env) (notificationId anggotaId : String)
    (r : ReadStatusRow) : ReadStatusRow :=
  if r.global_notifikasi_id = notificationId ∧ r.anggota_id = anggotaId then
    { r with is_read := true, updated_at := env.now } else r

/-- The row transformer of the mark-all global update: set is_read on
the member's rows that are currently unread, leave every other row
alone. -/
def setAllReadTrue (env : Env) (anggotaId : String) (r : ReadStatusRow) : ReadStatusRow :=
  if r.anggota_id = anggotaId ∧ r.is_read = false then
    { r with is_read := true, updated_at := env.now } else r

/-- Result of a marking operation: success flag, resulting store, trace
of remote calls. -/
structure MRes where
  ok : Bool
  db : DB
  trace : List Event
deriving Repr, DecidableEq

/-- NotificationService.markAsReadDirectly: the source-specific direct
table update.  Transaction source: existence check by id (a missing or
ambiguous row fails the layer), then set is_read and refresh updated_at.
Global source: existence check, then update the (notification, member)
read-status row when present, insert a fresh one with is_read true when
absent; either branch is success. -/
def markAsReadDirectly (env : Env) (db : DB) (src : Source)
    (notificationId anggotaId : String) : MRes :=
  match src with
  | .transaction =>
    if env.qCheckTransFails then ⟨false, db, [.qCheckTransNotif]⟩
    else
      match single (db.transaksi_notifikasi.filter (fun t => decide (t.id = notificationId))) with
      | .error _ => ⟨false, db, [.qCheckTransNotif]⟩
      | .ok _ =>
        if env.updTransNotifFails then ⟨false, db, [.qCheckTransNotif, .updTransNotif]⟩
        else
          ⟨true,
            { db with transaksi_notifikasi := db.transaksi_notifikasi.map (fun t =>
                if t.id = notificationId then
                  { t with is_read := some true, updated_at := some env.now } else t) },
            [.qCheckTransNotif, .updTransNotif]⟩
  | .global =>
    if env.qCheckGlobalFails then ⟨false, db, [.qCheckGlobal]⟩
    else
      match single (db.global_notifikasi.filter (fun g => decide (g.id = notificationId))) with
      | .error _ => ⟨false, db, [.qCheckGlobal]⟩
      | .ok _ =>
        if env.qCheckReadStatusFails then ⟨false, db, [.qCheckGlobal, .qCheckReadStatus]⟩
        else
          match single (readRowsFor db notificationId anggotaId) with
          | .error .multiRows => ⟨false, db, [.qCheckGlobal, .qCheckReadStatus]⟩
          | .ok _ =>
            if env.updReadStatusFails then
              ⟨false, db, [.qCheckGlobal, .qCheckReadStatus, .updReadStatus]⟩
            else
              ⟨true,
                { db with global_notifikasi_read :=
                    db.global_notifikasi_read.map (setReadTrue env notificationId anggotaId) },
                [.qCheckGlobal, .qCheckReadStatus, .updReadStatus]⟩
          | .error .noRows =>
            if env.insReadStatusFails then
              ⟨false, db, [.qCheckGlobal, .qCheckReadStatus, .insReadStatus]⟩
            else
              ⟨true,
                { db with global_notifikasi_read := db.global_notifikasi_read ++
                    [⟨env.freshReadId, notificationId, anggotaId, true, env.now, env.now⟩] },
                [.qCheckGlobal, .qCheckReadStatus, .insReadStatus]⟩

/-- NotificationService.markAsReadDirect: the direct-access layer.
With a source given, only that source is tried; with the source omitted,
transaction first, then global, first success wins. -/
def markAsReadDirect (env : Env) (db : DB) (notificationId : String)
    (src : Option Source) (anggotaId : String) : MRes :=
  match src with
  | some s => markAsReadDirectly env db s notificationId anggotaId
  | none =>
    let t := markAsReadDirectly env db .transaction notificationId anggotaId
    if t.ok then t
    else
      let g := markAsReadDirectly env t.db .global notificationId anggotaId
      ⟨g.ok, g.db, t.trace ++ g.trace⟩

/-- NotificationService.markAsReadUsingFunction: the privileged RPC
`mark_notification_as_read` (notification id, member id, source or the
auto sentinel).  The RPC body is backend code outside src; its
structured result is the environment's success flag, and its
server-side mutation is outside the modelled store. -/
def markAsReadUsingFunction (env : Env) (db : DB) (notificationId : String)
    (src : Option Source) (anggotaId : String) : MRes :=
  if env.rpcMarkReadFails then ⟨false, db, [.rpcMarkAsRead]⟩
  else if env.rpcMarkReadSuccess then ⟨true, db, [.rpcMarkAsRead]⟩
  else ⟨false, db, [.rpcMarkAsRead]⟩

/-- Result of markAsRead, which also owns the cache. -/
structure MarkOut where
  ok : Bool
  db : DB
  cache : Cache
  trace : List Event
deriving Repr, DecidableEq

/-- NotificationService.markAsRead: fail immediately without any remote
call when the member id is absent; otherwise run the direct-access
layer, and only if it fails entirely the privileged-function fallback;
any success clears the whole cache. -/
def markAsRead (env : Env) (db : DB) (cache : Cache) (notificationId : String)
    (src : Option Source) (anggotaId : Option String) : MarkOut :=
  match anggotaId with
  | none => ⟨false, db, cache, []⟩
  | some m =>
    let d := markAsReadDirect env db notificationId src m
    if d.ok then ⟨true, d.db, [], d.trace⟩
    else
      let f := markAsReadUsingFunction env d.db notificationId src m
      if f.ok then ⟨true, f.db, [], d.trace ++ f.trace⟩
      else ⟨false, f.db, cache, d.trace ++ f.trace⟩

/-- NotificationService.markAllAsRead: resolve the member's
transactions and mark their unread notifications read (trivial success
when the member has none), then mark the member's unread global
read-status rows read; overall success is the conjunction. -/
def markAllAsRead (env : Env) (db : DB) (anggotaId : String) : MRes :=
  let t : Bool × DB × List Event :=
    if env.maQTransaksiFails then (false, db, [.qTransaksi])
    else
      let ids := memberTransIds db anggotaId
      if ids.isEmpty then (true, db, [.qTransaksi])
      else if env.maUpdTransFails then (false, db, [.qTransaksi, .maUpdTransNotif])
      else
        (true,
          { db with transaksi_notifikasi := db.transaksi_notifikasi.map (fun n =>
              if n.is_read = some false ∧ inIds ids n.transaksi_id = true then
                { n with is_read := some true, updated_at := some env.now } else n) },
          [.qTransaksi, .maUpdTransNotif])
  let g : Bool × DB × List Event :=
    if env.maUpdReadFails then (false, t.2.1, [.maUpdReadStatus])
    else
      (true,
        { t.2.1 with global_notifikasi_read :=
            t.2.1.global_notifikasi_read.map (setAllReadTrue env anggotaId) },
        [.maUpdReadStatus])
  ⟨t.1 && g.1, g.2.1, t.2.2 ++ g.2.2⟩

/-- The identifying (notification, member) pair of a read-status row. -/
def pairOf (r : ReadStatusRow) : String × String :=
  (r.global_notifikasi_id, r.anggota_id)

/-- Classifies the remote calls belonging to one source's direct
mark-as-read path. -/
def sourceEvent : Source → Event → Bool
  | .transaction, .qCheckTransNotif => true
  | .transaction, .updTransNotif => true
  | .global, .qCheckGlobal => true
  | .global, .qCheckReadStatus => true
  | .global, .updReadStatus => true
  | .global, .insReadStatus => true
  | _, _ => false

/-- At most one read-status row per (global notification, member)
pair. -/
def ReadPairsUnique (db : DB) : Prop :=
  db.global_notifikasi_read.Pairwise (fun r s => ¬(pairOf r = pairOf s))

/-! Basic lemmas about the sorting and cache helpers. -/

theorem mem_insertDescBy {α : Type} (key : α → Nat) (x a : α) (l : List α) :
    a ∈ insertDescBy key x l ↔ a = x ∨ a ∈ l := by
  induction l with
  | nil => simp [insertDescBy]
  | cons y ys ih =>
    simp only [insertDescBy]
    split
    · simp [List.mem_cons]
    · simp only [List.mem_cons, ih]
      tauto

theorem pairwise_insertDescBy {α : Type} (key : α → Nat) (x : α) (l : List α)
    (h : l.Pairwise (fun a b => key b ≤ key a)) :
    (insertDescBy key x l).Pairwise (fun a b => key b ≤ key a) := by
  induction l with
  | nil => simp [insertDescBy]
  | cons y ys ih =>
    rw [List.pairwise_cons] at h
    simp only [insertDescBy]
    split
    · rename_i hlt
      rw [List.pairwise_cons]
      refine ⟨?_, List.pairwise_cons.mpr h⟩
      intro b hb
      rcases List.mem_cons.mp hb with hb | hb
      · subst hb; exact Nat.le_of_lt hlt
      · exact Nat.le_trans (h.1 b hb) (Nat.le_of_lt hlt)
    · rename_i hge
      rw [List.pairwise_cons]
      refine ⟨?_, ih h.2⟩
      intro b hb
      rcases (mem_insertDescBy key x b ys).mp hb with hb | hb
      · subst hb; exact Nat.le_of_not_lt hge
      · exact h.1 b hb

theorem sortDescBy_pairwise {α : Type} (key : α → Nat) (l : List α) :
    (sortDescBy key l).Pairwise (fun a b => key b ≤ key a) := by
  induction l with
  | nil => simp [sortDescBy]
  | cons x xs ih => exact pairwise_insertDescBy key x _ ih

theorem mem_sortDescBy {α : Type} (key : α → Nat) (a : α) (l : List α) :
    a ∈ sortDescBy key l ↔ a ∈ l := by
  induction l with
  | nil => simp [sortDescBy]
  | cons x xs ih => simp [sortDescBy, mem_insertDescBy, ih]

theorem cacheLookup_cacheInsert (c : Cache) (k : String × Nat) (v : List Notification) :
    cacheLookup (cacheInsert c k v) k = some v := by
  simp [cacheInsert, cacheLookup]

theorem cacheLookup_cacheInsert_ne (c : Cache) (k k1 : String × Nat)
    (v : List Notification) (h : k1 ≠ k) :
    cacheLookup (cacheInsert c k v) k1 = cacheLookup c k1 := by
  show (if k = k1 then some v else cacheLookup c k1) = cacheLookup c k1
  rw [if_neg (fun e => h e.symm)]

/-- A notification list is newest-first: non-increasing by created_at. -/
def SortedByDateDesc (l : List Notification) : Prop :=
  l.Pairwise (fun a b => b.created_at ≤ a.created_at)

/-- Every cached entry is sorted newest-first and no longer than the
limit component of its key. -/
def CacheWF (c : Cache) : Prop :=
  ∀ k v, cacheLookup c k = some v → SortedByDateDesc v ∧ v.length ≤ k.2

theorem getNotificationsFresh_items (env : Env) (db : DB) (cache : Cache)
    (anggotaId : String) (limit : Nat) :
    SortedByDateDesc (getNotificationsFresh env db cache anggotaId limit).items ∧
      (getNotificationsFresh env db cache anggotaId limit).items.length ≤ limit := by
  constructor
  · exact (sortDescBy_pairwise _ _).sublist (List.take_sublist _ _)
  · simp [getNotificationsFresh, List.length_take]

theorem getNotificationsFresh_cache (env : Env) (db : DB) (cache : Cache)
    (anggotaId : String) (limit : Nat) :
    (getNotificationsFresh env db cache anggotaId limit).cache =
      cacheInsert cache (anggotaId, limit)
        (getNotificationsFresh env db cache anggotaId limit).items := rfl

theorem getNotificationsFresh_cacheWF (env : Env) (db : DB) (cache : Cache)
    (anggotaId : String) (limit : Nat) (hwf : CacheWF cache) :
    CacheWF (getNotificationsFresh env db cache anggotaId limit).cache := by
  intro k v hv
  rw [getNotificationsFresh_cache] at hv
  by_cases hk : k = (anggotaId, limit)
  · subst hk
    rw [cacheLookup_cacheInsert] at hv
    cases hv
    exact getNotificationsFresh_items env db cache anggotaId limit
  · rw [cacheLookup_cacheInsert_ne _ _ _ _ hk] at hv
    exact hwf k v hv

/-- C1: for every member id, limit and database state, getNotifications
returns a sequence sorted non-increasing by created_at whose length
never exceeds the requested limit, and it keeps every cache entry in
that shape. -/
theorem getNotifications_sorted_and_bounded (env : Env) (db : DB) (cache : Cache)
    (anggotaId : String) (limit : Nat) (forceRefresh : Bool) (hwf : CacheWF cache) :
    SortedByDateDesc (getNotifications env db cache anggotaId limit forceRefresh).items ∧
      (getNotifications env db cache anggotaId limit forceRefresh).items.length ≤ limit ∧
      CacheWF (getNotifications env db cache anggotaId limit forceRefresh).cache := by
  have hfresh := getNotificationsFresh_items env db cache anggotaId limit
  have hwf2 := getNotificationsFresh_cacheWF env db cache anggotaId limit hwf
  unfold getNotifications
  split
  · exact ⟨hfresh.1, hfresh.2, hwf2⟩
  · cases hlk : cacheLookup cache (anggotaId, limit) with
    | some v =>
      simp only [hlk]
      exact ⟨(hwf _ _ hlk).1, (hwf _ _ hlk).2, hwf⟩
    | none =>
      simp only [hlk]
      exact ⟨hfresh.1, hfresh.2, hwf2⟩

/-- Witness for C1 at a concrete input. -/
theorem getNotifications_sorted_and_bounded_witness :
    CacheWF [] ∧
      (SortedByDateDesc (getNotifications {} ⟨[⟨"T1", "A"⟩],
          [⟨"N1", "t", "p", some "transaksi", none, some false, some "T1", 7, none⟩],
          [⟨"G1", "t", "p", some "pengumuman", none, 9, none⟩], []⟩ [] "A" 1 false).items ∧
        (getNotifications {} ⟨[⟨"T1", "A"⟩],
          [⟨"N1", "t", "p", some "transaksi", none, some false, some "T1", 7, none⟩],
          [⟨"G1", "t", "p", some "pengumuman", none, 9, none⟩], []⟩ [] "A" 1 false).items.length ≤ 1 ∧
        CacheWF (getNotifications {} ⟨[⟨"T1", "A"⟩],
          [⟨"N1", "t", "p", some "transaksi", none, some false, some "T1", 7, none⟩],
          [⟨"G1", "t", "p", some "pengumuman", none, 9, none⟩], []⟩ [] "A" 1 false).cache) := by
  have hwf : CacheWF [] := fun _ _ h => nomatch h
  exact ⟨hwf, getNotifications_sorted_and_bounded _ _ _ _ _ _ hwf⟩

/-- C7: when the member id is absent, markAsRead returns false at once,
leaves the store and the cache untouched, and performs no remote call at
all. -/
theorem markAsRead_missing_member (env : Env) (db : DB) (cache : Cache)
    (notificationId : String) (src : Option Source) :
    markAsRead env db cache notificationId src none = ⟨false, db, cache, []⟩ := rfl

/-- C4: getUnreadCount is the whole-table count of unread transaction
notifications (not filtered by member) plus the member's count of unread
global read-status rows; a failing transaction count gives 0 and a
failing global count gives the transaction count alone.  Globals with no
read-status row never contribute: the result ignores the
global_notifikasi table entirely. -/
theorem getUnreadCount_spec (env : Env) (db : DB) (anggotaId : String) :
    getUnreadCount env db anggotaId =
      (if env.cntTransFails then 0
        else if env.cntGlobalFails then
          db.transaksi_notifikasi.countP (fun r => decide (r.is_read = some false))
        else
          db.transaksi_notifikasi.countP (fun r => decide (r.is_read = some false)) +
            db.global_notifikasi_read.countP
              (fun r => decide (r.anggota_id = anggotaId ∧ r.is_read = false))) ∧
      ∀ gs, getUnreadCount env ⟨db.transaksi, db.transaksi_notifikasi, gs,
          db.global_notifikasi_read⟩ anggotaId = getUnreadCount env db anggotaId := by
  constructor
  · unfold getUnreadCount
    split
    · rfl
    · split <;> simp [List.countP_eq_length_filter]
  · intro gs
    unfold getUnreadCount
    rfl

/-- C3: in the corrected aggregation variant the jatuh_tempo fetch is
filtered only by jenis, so the feed of member A can contain a
notification attached to another member's transaction, and A's own
jatuh_tempo notification can appear twice (once from the member fetch,
once from the jatuh_tempo fetch).  Shown on a concrete store. -/
theorem getNotifications_jatuh_tempo_leak :
    ((getNotifications {} ⟨[⟨"T1", "A"⟩, ⟨"T2", "B"⟩],
        [⟨"N1", "t1", "p1", some "jatuh_tempo", none, some false, some "T1", 10, none⟩,
         ⟨"N2", "t2", "p2", some "jatuh_tempo", none, some false, some "T2", 20, none⟩],
        [], []⟩ [] "A" 10 true).items.countP (fun n => decide (n.id = "N1"))) = 2 ∧
    (∃ n ∈ (getNotifications {} ⟨[⟨"T1", "A"⟩, ⟨"T2", "B"⟩],
        [⟨"N1", "t1", "p1", some "jatuh_tempo", none, some false, some "T1", 10, none⟩,
         ⟨"N2", "t2", "p2", some "jatuh_tempo", none, some false, some "T2", 20, none⟩],
        [], []⟩ [] "A" 10 true).items,
      n.transaksi_id = some "T2" ∧
        "T2" ∉ memberTransIds ⟨[⟨"T1", "A"⟩, ⟨"T2", "B"⟩],
          [⟨"N1", "t1", "p1", some "jatuh_tempo", none, some false, some "T1", 10, none⟩,
           ⟨"N2", "t2", "p2", some "jatuh_tempo", none, some false, some "T2", 20, none⟩],
          [], []⟩ "A") := by
  decide

theorem markAsReadDirectly_not_ok_db (env : Env) (db : DB) (s : Source)
    (nid m : String) :
    (markAsReadDirectly env db s nid m).ok = false →
    (markAsReadDirectly env db s nid m).db = db := by
  cases s <;> unfold markAsReadDirectly <;> (repeat' split) <;> simp

/-- C2: markAsRead attempts the direct-access layer first and invokes
the privileged RPC fallback only when the whole direct layer has failed
(its trace is the direct layer's trace, followed by the privileged call
exactly when the direct layer failed); with a source given the direct
layer performs only that source's calls; with the source omitted it
tries the transaction source first and the global source only after
that fails, first success winning; when both layers fail the overall
result is false. -/
theorem markAsRead_layering (env : Env) (db : DB) (cache : Cache)
    (nid : String) (src : Option Source) (s : Source) (m : String) :
    (markAsRead env db cache nid src (some m)).trace =
        (markAsReadDirect env db nid src m).trace ++
          (if (markAsReadDirect env db nid src m).ok then [] else [Event.rpcMarkAsRead]) ∧
    (markAsRead env db cache nid src (some m)).ok =
        ((markAsReadDirect env db nid src m).ok ||
          (!env.rpcMarkReadFails && env.rpcMarkReadSuccess)) ∧
    markAsReadDirect env db nid (some s) m = markAsReadDirectly env db s nid m ∧
    (markAsReadDirectly env db s nid m).trace.all (sourceEvent s) = true ∧
    (markAsReadDirect env db nid none m).trace =
        (markAsReadDirectly env db .transaction nid m).trace ++
          (if (markAsReadDirectly env db .transaction nid m).ok then []
            else (markAsReadDirectly env db .global nid m).trace) ∧
    (markAsReadDirect env db nid none m).ok =
        ((markAsReadDirectly env db .transaction nid m).ok ||
          (markAsReadDirectly env db .global nid m).ok) := by
  refine ⟨?_, ?_, rfl, ?_, ?_, ?_⟩
  · cases hd : (markAsReadDirect env db nid src m).ok <;>
      cases hf : env.rpcMarkReadFails <;>
      cases hs : env.rpcMarkReadSuccess <;>
      simp [markAsRead, markAsReadUsingFunction, hd, hf, hs]
  · cases hd : (markAsReadDirect env db nid src m).ok <;>
      cases hf : env.rpcMarkReadFails <;>
      cases hs : env.rpcMarkReadSuccess <;>
      simp [markAsRead, markAsReadUsingFunction, hd, hf, hs]
  · cases s <;> unfold markAsReadDirectly <;> (repeat' split) <;> simp_all [sourceEvent]
  · cases hT : (markAsReadDirectly env db .transaction nid m).ok
    · have hdb := markAsReadDirectly_not_ok_db env db .transaction nid m hT
      simp [markAsReadDirect, hT, hdb]
    · simp [markAsReadDirect, hT]
  · cases hT : (markAsReadDirectly env db .transaction nid m).ok
    · have hdb := markAsReadDirectly_not_ok_db env db .transaction nid m hT
      simp [markAsReadDirect, hT, hdb]
    · simp [markAsReadDirect, hT]

theorem setReadTrue_pairOf (env : Env) (n m : String) (r : ReadStatusRow) :
    pairOf (setReadTrue env n m r) = pairOf r := by
  unfold setReadTrue
  split <;> rfl

theorem readRowsFor_unique (db : DB) (nid m : String) (hu : ReadPairsUnique db) :
    readRowsFor db nid m = [] ∨ ∃ x, readRowsFor db nid m = [x] := by
  have hpw : (readRowsFor db nid m).Pairwise (fun r s => ¬(pairOf r = pairOf s)) :=
    hu.filter _
  match hrw : readRowsFor db nid m with
  | [] => exact Or.inl rfl
  | [x] => exact Or.inr ⟨x, rfl⟩
  | x :: y :: t =>
    exfalso
    rw [hrw] at hpw
    have hxy := (List.pairwise_cons.mp hpw).1 y (List.mem_cons_self y t)
    have hx : x ∈ readRowsFor db nid m := by rw [hrw]; exact List.mem_cons_self _ _
    have hy : y ∈ readRowsFor db nid m := by rw [hrw]; simp
    unfold readRowsFor at hx hy
    have px := (List.mem_filter.mp hx).2
    have py := (List.mem_filter.mp hy).2
    rw [decide_eq_true_eq] at px py
    exact hxy (by unfold pairOf; rw [px.1, px.2, py.1, py.2])

/-- C5: the direct global mark-as-read path keeps at most one
read-status row per (global notification, member) pair: with no row for
the pair it appends exactly one fresh row with is_read true, with an
existing row it updates in place (the pair multiset is unchanged and the
pair's rows all end up read), and either branch reports success. -/
theorem markAsReadDirectly_global_invariant (env : Env) (db : DB) (nid m : String)
    (h1 : env.qCheckGlobalFails = false) (h2 : env.qCheckReadStatusFails = false)
    (h3 : env.updReadStatusFails = false) (h4 : env.insReadStatusFails = false)
    (hg : ∃ g, db.global_notifikasi.filter (fun x => decide (x.id = nid)) = [g])
    (hu : ReadPairsUnique db) :
    (markAsReadDirectly env db .global nid m).ok = true ∧
    ReadPairsUnique (markAsReadDirectly env db .global nid m).db ∧
    (readRowsFor db nid m = [] →
      (markAsReadDirectly env db .global nid m).db.global_notifikasi_read =
        db.global_notifikasi_read ++
          [⟨env.freshReadId, nid, m, true, env.now, env.now⟩]) ∧
    ((∃ x, readRowsFor db nid m = [x]) →
      (markAsReadDirectly env db .global nid m).db.global_notifikasi_read.map pairOf =
          db.global_notifikasi_read.map pairOf ∧
        ∀ r ∈ readRowsFor (markAsReadDirectly env db .global nid m).db nid m,
          r.is_read = true) := by
  obtain ⟨g, hgf⟩ := hg
  rcases readRowsFor_unique db nid m hu with hrw | ⟨x, hrw⟩
  · have hred : markAsReadDirectly env db .global nid m =
        ⟨true, { db with global_notifikasi_read := db.global_notifikasi_read ++
            [⟨env.freshReadId, nid, m, true, env.now, env.now⟩] },
          [.qCheckGlobal, .qCheckReadStatus, .insReadStatus]⟩ := by
      simp [markAsReadDirectly, h1, h2, h4, hgf, hrw, single]
    rw [hred]
    refine ⟨rfl, ?_, fun _ => rfl, fun hx => ?_⟩
    · unfold ReadPairsUnique
      rw [List.pairwise_append]
      refine ⟨hu, List.pairwise_singleton _ _, ?_⟩
      intro a ha b hb hab
      have hbn : b = ⟨env.freshReadId, nid, m, true, env.now, env.now⟩ := by
        simpa using hb
      have hno := List.filter_eq_nil_iff.mp hrw a ha
      rw [decide_eq_true_eq] at hno
      apply hno
      have h1a : a.global_notifikasi_id = nid := by
        have := congrArg Prod.fst hab
        simpa [pairOf, hbn] using this
      have h2a : a.anggota_id = m := by
        have := congrArg Prod.snd hab
        simpa [pairOf, hbn] using this
      exact ⟨h1a, h2a⟩
    · obtain ⟨x2, hx2⟩ := hx
      exact absurd (hrw.symm.trans hx2) (by simp)
  · have hred : markAsReadDirectly env db .global nid m =
        ⟨true, { db with global_notifikasi_read :=
            db.global_notifikasi_read.map (setReadTrue env nid m) },
          [.qCheckGlobal, .qCheckReadStatus, .updReadStatus]⟩ := by
      simp [markAsReadDirectly, h1, h2, h3, hgf, hrw, single]
    rw [hred]
    refine ⟨rfl, ?_, fun h0 => absurd (h0.symm.trans hrw) (by simp), fun _ => ⟨?_, ?_⟩⟩
    · unfold ReadPairsUnique
      refine List.pairwise_map.mpr (hu.imp ?_)
      intro a b hab
      rwa [setReadTrue_pairOf, setReadTrue_pairOf]
    · show (db.global_notifikasi_read.map (setReadTrue env nid m)).map pairOf =
        db.global_notifikasi_read.map pairOf
      rw [List.map_map]
      exact List.map_congr_left (fun a _ => setReadTrue_pairOf env nid m a)
    · intro r hr
      unfold readRowsFor at hr
      have hmem := (List.mem_filter.mp hr).1
      have hp := (List.mem_filter.mp hr).2
      rw [decide_eq_true_eq] at hp
      obtain ⟨y, _, hyr⟩ := List.mem_map.mp hmem
      by_cases hy2 : y.global_notifikasi_id = nid ∧ y.anggota_id = m
      · rw [← hyr]
        unfold setReadTrue
        rw [if_pos hy2]
      · exfalso
        apply hy2
        have hyeq : setReadTrue env nid m y = y := by
          unfold setReadTrue
          rw [if_neg hy2]
        rw [← hyr, hyeq] at hp
        exact hp

/-- Witness for C5 at a concrete input (no pre-existing row: the insert
branch). -/
theorem markAsReadDirectly_global_invariant_witness :
    (({} : Env).qCheckGlobalFails = false ∧ ({} : Env).qCheckReadStatusFails = false ∧
      ({} : Env).updReadStatusFails = false ∧ ({} : Env).insReadStatusFails = false ∧
      (∃ g, ((⟨[], [], [⟨"G1", "t", "p", some "pengumuman", none, 3, none⟩], []⟩ :
          DB).global_notifikasi.filter (fun x => decide (x.id = "G1"))) = [g]) ∧
      ReadPairsUnique ⟨[], [], [⟨"G1", "t", "p", some "pengumuman", none, 3, none⟩], []⟩) ∧
    (markAsReadDirectly {} ⟨[], [], [⟨"G1", "t", "p", some "pengumuman", none, 3, none⟩], []⟩
        .global "G1" "A").ok = true := by
  have hu : ReadPairsUnique ⟨[], [], [⟨"G1", "t", "p", some "pengumuman", none, 3, none⟩], []⟩ :=
    List.Pairwise.nil
  refine ⟨⟨rfl, rfl, rfl, rfl, ⟨⟨"G1", "t", "p", some "pengumuman", none, 3, none⟩, by decide⟩,
    hu⟩, ?_⟩
  exact (markAsReadDirectly_global_invariant {}
    ⟨[], [], [⟨"G1", "t", "p", some "pengumuman", none, 3, none⟩], []⟩ "G1" "A" rfl rfl rfl rfl
    ⟨⟨"G1", "t", "p", some "pengumuman", none, 3, none⟩, by decide⟩ hu).1

theorem fetchGlobalNotifs_mem (env : Env) (db : DB) (anggotaId : String)
    (g : GlobalNotifRow) (h : g ∈ (fetchGlobalNotifs env db anggotaId).1) :
    g ∈ db.global_notifikasi := by
  unfold fetchGlobalNotifs at h
  repeat' split at h
  all_goals dsimp only at h
  all_goals first
    | exact absurd h (List.not_mem_nil g)
    | (rw [mem_sortDescBy] at h; exact h)
    | (rw [mem_sortDescBy] at h; exact (List.mem_filter.mp h).1)
    | (simp only [rpcMemberGlobalNotifications] at h;
       simp [List.map_map, Function.comp, mem_sortDescBy] at h; exact h)

/-- C6: every global-sourced element of the aggregated feed carries the
jenis of a stored global notification with its id, exactly as stored
(never defaulted to a fixed category). -/
theorem getNotifications_global_jenis_preserved (env : Env) (db : DB) (cache : Cache)
    (anggotaId : String) (limit : Nat) (n : Notification)
    (hn : n ∈ (getNotifications env db cache anggotaId limit true).items)
    (hsrc : n.source = Source.global) :
    ∃ g ∈ db.global_notifikasi, g.id = n.id ∧ n.jenis = g.jenis := by
  have hfr : getNotifications env db cache anggotaId limit true =
      getNotificationsFresh env db cache anggotaId limit := rfl
  rw [hfr] at hn
  unfold getNotificationsFresh at hn
  dsimp only at hn
  have hn2 := (List.take_sublist _ _).subset hn
  rw [mem_sortDescBy] at hn2
  rcases List.mem_append.mp hn2 with h12 | hg
  · rcases List.mem_append.mp h12 with ht | hj
    · obtain ⟨t, _, hteq⟩ := List.mem_map.mp ht
      rw [← hteq] at hsrc
      exact absurd hsrc (by simp [formatTransNotif])
    · obtain ⟨t, _, hteq⟩ := List.mem_map.mp hj
      rw [← hteq] at hsrc
      exact absurd hsrc (by simp [formatTransNotif])
  · obtain ⟨g0, hg0, hgeq⟩ := List.mem_map.mp hg
    refine ⟨g0, fetchGlobalNotifs_mem env db anggotaId g0 hg0, ?_, ?_⟩
    · rw [← hgeq]; rfl
    · rw [← hgeq]; rfl

/-- Witness for C6 at a concrete input. -/
theorem getNotifications_global_jenis_preserved_witness :
    ((⟨"G1", "t", "p", some "promo", [], false, 5, 5, .global, none, some "G1", "A"⟩ :
        Notification) ∈
      (getNotifications {} ⟨[], [], [⟨"G1", "t", "p", some "promo", none, 5, none⟩], []⟩
        [] "A" 50 true).items ∧
      (⟨"G1", "t", "p", some "promo", [], false, 5, 5, .global, none, some "G1", "A"⟩ :
        Notification).source = Source.global) ∧
    ∃ g ∈ (⟨[], [], [⟨"G1", "t", "p", some "promo", none, 5, none⟩], []⟩ :
        DB).global_notifikasi,
      g.id = (⟨"G1", "t", "p", some "promo", [], false, 5, 5, .global, none, some "G1", "A"⟩ :
        Notification).id ∧
      (⟨"G1", "t", "p", some "promo", [], false, 5, 5, .global, none, some "G1", "A"⟩ :
        Notification).jenis = g.jenis := by
  refine ⟨⟨by decide, rfl⟩, ?_⟩
  exact getNotifications_global_jenis_preserved {}
    ⟨[], [], [⟨"G1", "t", "p", some "promo", none, 5, none⟩], []⟩ [] "A" 50
    ⟨"G1", "t", "p", some "promo", [], false, 5, 5, .global, none, some "G1", "A"⟩
    (by decide) rfl

theorem setAllReadTrue_pairOf (env : Env) (m : String) (r : ReadStatusRow) :
    pairOf (setAllReadTrue env m r) = pairOf r := by
  unfold setAllReadTrue
  split <;> rfl

theorem setAllReadTrue_ang (env : Env) (m : String) (r : ReadStatusRow) :
    (setAllReadTrue env m r).anggota_id = r.anggota_id := by
  unfold setAllReadTrue
  split <;> rfl

theorem setAllReadTrue_of_ne (env : Env) (m : String) (r : ReadStatusRow)
    (h : ¬(r.anggota_id = m)) : setAllReadTrue env m r = r := by
  unfold setAllReadTrue
  rw [if_neg (fun hc => h hc.1)]

theorem map_pairOf_setAllReadTrue (env : Env) (m : String) (l : List ReadStatusRow) :
    (l.map (setAllReadTrue env m)).map pairOf = l.map pairOf := by
  rw [List.map_map]
  exact List.map_congr_left (fun a _ => setAllReadTrue_pairOf env m a)

theorem filter_map_setAllReadTrue (env : Env) (m : String) (l : List ReadStatusRow) :
    (l.map (setAllReadTrue env m)).filter (fun r => !decide (r.anggota_id = m)) =
      l.filter (fun r => !decide (r.anggota_id = m)) := by
  induction l with
  | nil => rfl
  | cons r t ih =>
    simp only [List.map_cons, List.filter_cons, setAllReadTrue_ang]
    by_cases hr : r.anggota_id = m
    · simp [hr, ih]
    · simp [hr, ih, setAllReadTrue_of_ne env m r hr]

/-- C8: markAllAsRead succeeds exactly when both sub-operations succeed
(the transaction-side update succeeding trivially when the member has no
transactions), it never inserts global read-status rows (the pair list
is unchanged), and read-status rows of other members are untouched. -/
theorem markAllAsRead_spec (env : Env) (db : DB) (m : String) :
    (markAllAsRead env db m).ok =
        ((!env.maQTransaksiFails &&
            ((memberTransIds db m).isEmpty || !env.maUpdTransFails)) &&
          !env.maUpdReadFails) ∧
    (markAllAsRead env db m).db.global_notifikasi_read.map pairOf =
        db.global_notifikasi_read.map pairOf ∧
    (markAllAsRead env db m).db.global_notifikasi_read.filter
        (fun r => !decide (r.anggota_id = m)) =
      db.global_notifikasi_read.filter (fun r => !decide (r.anggota_id = m)) := by
  cases h1 : env.maQTransaksiFails <;>
  cases h2 : (memberTransIds db m).isEmpty <;>
  cases h3 : env.maUpdTransFails <;>
  cases h4 : env.maUpdReadFails <;>
  simp [markAllAsRead, h1, h2, h3, h4, map_pairOf_setAllReadTrue,
    filter_map_setAllReadTrue, setAllReadTrue_pairOf]

/-- C9: with forceRefresh false, a second getNotifications call for the
same member and limit and unchanged store returns the very same items
and performs no remote call (whole-result cache hit); with forceRefresh
true the cache contents are irrelevant to the result and the fetch is
re-run (the transaction RPC appears in the trace). -/
theorem getNotifications_cache_semantics (env : Env) (db : DB) (cache c1 c2 : Cache)
    (anggotaId : String) (limit : Nat) :
    (getNotifications env db (getNotifications env db cache anggotaId limit false).cache
        anggotaId limit false).items =
      (getNotifications env db cache anggotaId limit false).items ∧
    (getNotifications env db (getNotifications env db cache anggotaId limit false).cache
        anggotaId limit false).trace = [] ∧
    (getNotifications env db c1 anggotaId limit true).items =
      (getNotifications env db c2 anggotaId limit true).items ∧
    Event.rpcTransNotif ∈ (getNotifications env db c1 anggotaId limit true).trace := by
  have hpair : (getNotifications env db
        (getNotifications env db cache anggotaId limit false).cache anggotaId limit false).items =
      (getNotifications env db cache anggotaId limit false).items ∧
      (getNotifications env db
        (getNotifications env db cache anggotaId limit false).cache anggotaId limit false).trace =
        [] := by
    cases hlk : cacheLookup cache (anggotaId, limit) with
    | some v =>
      have h1 : getNotifications env db cache anggotaId limit false = ⟨v, cache, []⟩ := by
        simp [getNotifications, hlk]
      rw [h1]
      simp [getNotifications, hlk]
    | none =>
      have h1 : getNotifications env db cache anggotaId limit false =
          getNotificationsFresh env db cache anggotaId limit := by
        simp [getNotifications, hlk]
      rw [h1, getNotificationsFresh_cache]
      simp [getNotifications, cacheLookup_cacheInsert]
  refine ⟨hpair.1, hpair.2, rfl, ?_⟩
  show Event.rpcTransNotif ∈ (getNotificationsFresh env db c1 anggotaId limit).trace
  unfold getNotificationsFresh
  dsimp only
  cases h1 : env.rpcTransNotifFails <;>
  cases h2 : env.qTransaksiFails <;>
  cases h3 : (memberTransIds db anggotaId).isEmpty <;>
  cases h4 : env.qTransNotifByIdsFails <;>
  simp [fetchTransactionNotifs, h1, h2, h3, h4]

/-- C10: under the total-failure pattern every public operation still
returns a value of its declared type, namely its safe default: empty
lists for the listing operations, zero for the unread count, false for
the marking operations, with the store and cache untouched by the
marking operation. -/
theorem service_total_failure_defaults (env : Env) (db : DB) (cache : Cache)
    (anggotaId nid ty : String) (l1 l2 : Nat) (src : Option Source)
    (h : env.allFaults) :
    (getNotifications env db cache anggotaId l1 true).items = [] ∧
    getNotificationsByType env db anggotaId ty l2 = [] ∧
    getUnreadCount env db anggotaId = 0 ∧
    (markAsRead env db cache nid src (some anggotaId)).ok = false ∧
    (markAsRead env db cache nid src (some anggotaId)).db = db ∧
    (markAsRead env db cache nid src (some anggotaId)).cache = cache ∧
    (markAllAsRead env db anggotaId).ok = false := by
  obtain ⟨h1, h2, h3, h4, h5, h6, h7, h8, h9, h10, h11, h12, h13, h14, h15,
    h16, h17, h18, h19, h20, h21, h22, h23⟩ := h
  refine ⟨?_, ?_, ?_, ?_, ?_, ?_, ?_⟩
  · simp [getNotifications, getNotificationsFresh, fetchTransactionNotifs,
      fetchJatuhTempoNotifs, fetchGlobalNotifs, h1, h2, h4, h5, h6, h7, h8,
      sortDescBy]
  · unfold getNotificationsByType
    split
    · simp [h21, h22]
    · simp [h23]
  · simp [getUnreadCount, h9]
  · rcases src with _ | s
    · simp [markAsRead, markAsReadDirect, markAsReadDirectly,
        markAsReadUsingFunction, h11, h13, h17]
    · cases s <;>
        simp [markAsRead, markAsReadDirect, markAsReadDirectly,
          markAsReadUsingFunction, h11, h13, h17]
  · rcases src with _ | s
    · simp [markAsRead, markAsReadDirect, markAsReadDirectly,
        markAsReadUsingFunction, h11, h13, h17]
    · cases s <;>
        simp [markAsRead, markAsReadDirect, markAsReadDirectly,
          markAsReadUsingFunction, h11, h13, h17]
  · rcases src with _ | s
    · simp [markAsRead, markAsReadDirect, markAsReadDirectly,
        markAsReadUsingFunction, h11, h13, h17]
    · cases s <;>
        simp [markAsRead, markAsReadDirect, markAsReadDirectly,
          markAsReadUsingFunction, h11, h13, h17]
  · simp [markAllAsRead, h18, h20]

/-- The environment in which every remote call fails. -/
def failingEnv : Env :=
  { rpcTransNotifFails := true, qTransaksiFails := true,
    qTransNotifByIdsFails := true, qJatuhTempoFails := true,
    rpcGlobalFails := true, qGlobalJoinFails := true, qGlobalFails := true,
    qReadStatusFails := true, cntTransFails := true, cntGlobalFails := true,
    qCheckTransFails := true, updTransNotifFails := true,
    qCheckGlobalFails := true, qCheckReadStatusFails := true,
    updReadStatusFails := true, insReadStatusFails := true,
    rpcMarkReadFails := true, maQTransaksiFails := true,
    maUpdTransFails := true, maUpdReadFails := true,
    byTypeRpcGlobalFails := true, byTypeQGlobalFails := true,
    byTypeQTransFails := true }

/-- Witness for C10 at a concrete input. -/
theorem service_total_failure_defaults_witness :
    failingEnv.allFaults ∧
    (getNotifications failingEnv ⟨[], [], [], []⟩ [] "A" 5 true).items = [] := by
  have hall : failingEnv.allFaults := ⟨rfl, rfl, rfl, rfl, rfl, rfl, rfl, rfl, rfl, rfl, rfl, rfl, rfl, rfl, rfl, rfl, rfl, rfl, rfl, rfl, rfl, rfl, rfl⟩
  refine ⟨hall, ?_⟩
  exact (service_total_failure_defaults failingEnv ⟨[], [], [], []⟩ [] "A" "N" "x" 5 5 none
    hall).1

end KoperasiNotif
